import Mathlib

/-!
# Verification of the sample Llama Stack passthrough client

A shallow embedding of `src/main.py`, a Python client that issues a
synchronous and a streaming chat-completion request against a local
OpenAI-compatible gateway.

The embedding models:

* Python's `json` module on the fragment the program relies on:
  JSON values (`Json`), `json.dumps` with its default options
  (`ensure_ascii=True`, separators `", "` and `": "`) as `json_dumps`,
  and `json.loads` as `json_loads` (a fuel-indexed recursive-descent
  parser; the fuel `length + 9` exceeds the number of recursive steps,
  each of which consumes input, so it never runs out on real input).
  Numeric literals are validated against the JSON grammar and kept as
  their lexemes, since the program never computes with numbers.
  Python strings that contain lone surrogates are not representable as
  Lean strings; escape sequences denoting lone surrogates are therefore
  rejected by `parseJStr` (CPython tolerates them), which is outside the
  domain of representable values and unreachable from `json_dumps`.
* Python's subscript / `.get` / truthiness semantics on decoded JSON
  values (`pySubscript`, `pyIndexZero`, `pyGet`, `pyTruthy`), used by
  `chunk["choices"][0]["delta"].get("content")` in `chat_streaming` and
  `data["choices"][0]["message"]["content"]` in `chat`.
* the header builder `provider_data_header`,
* the streaming decode loop of `chat_streaming` (`streamLoop`), with the
  stream of `response.iter_lines()` as a list of strings and stdout as an
  accumulated string; a raised Python exception becomes `Except.error`
  carrying the exception and the output emitted before it,
* both calls' handling of the HTTP status (`chatRun`,
  `chatStreamingRun`), with the response modelled as its status plus its
  body (synchronous) or its lines (streaming),
* the entry point `main` as a function from the optional value of the
  `OPENAI_API_KEY` environment variable to the action taken.

`print(x)` appends `str(x)` and a newline to stdout;
`print(x, end="", flush=True)` appends just `str(x)` (flushing is an I/O
detail with no observable effect on the assembled output). `pyStr` is
exact on the cases a chat response can reach with string contents
(strings, `None`, booleans); for container values it falls back to JSON
rendering where CPython would use `repr`, a formatting corner no claim
touches.
-/

namespace LlsSample

/-- JSON values as produced by Python's `json.loads`: objects keep their
fields in insertion order with later duplicates overwriting earlier ones
in place (Python `dict` semantics, applied by `objUpdate` during
parsing); numeric literals are kept as their lexemes. -/
inductive Json where
  | null : Json
  | bool : Bool → Json
  | num : String → Json
  | str : String → Json
  | arr : List Json → Json
  | obj : List (String × Json) → Json

/-- Lowercase hexadecimal digit, as emitted by CPython's JSON encoder. -/
def toHexDigit (n : Nat) : Char :=
  if n < 10 then Char.ofNat (48 + n) else Char.ofNat (87 + n)

/-- Four-digit lowercase hex rendering of `n < 0x10000`, the `XXXX` of a
`\uXXXX` escape. -/
def hex4 (n : Nat) : List Char :=
  [toHexDigit (n / 4096 % 16), toHexDigit (n / 256 % 16),
   toHexDigit (n / 16 % 16), toHexDigit (n % 16)]

/-- CPython `json.dumps` escaping of one character with the default
`ensure_ascii=True`: short escapes for `"`, `\`, and the five named
control characters; `\uXXXX` for other control characters and all
non-ASCII characters (a surrogate pair for astral ones); everything
else passes through. -/
def escChar (c : Char) : List Char :=
  if c = '"' then ['\\', '"']
  else if c = '\\' then ['\\', '\\']
  else if c = '\x08' then ['\\', 'b']
  else if c = '\x0c' then ['\\', 'f']
  else if c = '\n' then ['\\', 'n']
  else if c = '\r' then ['\\', 'r']
  else if c = '\t' then ['\\', 't']
  else if c.toNat < 0x20 ∨ 0x7e < c.toNat then
    if c.toNat < 0x10000 then '\\' :: 'u' :: hex4 c.toNat
    else ('\\' :: 'u' :: hex4 (0xd800 + (c.toNat - 0x10000) / 0x400)) ++
         ('\\' :: 'u' :: hex4 (0xdc00 + (c.toNat - 0x10000) % 0x400))
  else [c]

/-- `json.dumps` escaping of a whole string body (without the
surrounding quotes). -/
def escString : List Char → List Char
  | [] => []
  | c :: cs => escChar c ++ escString cs

mutual

/-- `json.dumps` with its defaults: item separator `", "`, key separator
`": "`, `ensure_ascii=True`. Numeric lexemes are emitted as stored. -/
def dumpJson : Json → List Char
  | .null => "null".data
  | .bool true => "true".data
  | .bool false => "false".data
  | .num s => s.data
  | .str s => '"' :: (escString s.data ++ ['"'])
  | .arr xs => '[' :: (dumpArr xs ++ [']'])
  | .obj fs => '\x7b' :: (dumpObj fs ++ ['\x7d'])

/-- Array elements of `json.dumps`, joined by `", "`. -/
def dumpArr : List Json → List Char
  | [] => []
  | [x] => dumpJson x
  | x :: y :: xs => dumpJson x ++ ',' :: ' ' :: dumpArr (y :: xs)

/-- Object members of `json.dumps`, each `"key": value`, joined by
`", "`. -/
def dumpObj : List (String × Json) → List Char
  | [] => []
  | [(k, v)] => '"' :: (escString k.data ++ '"' :: ':' :: ' ' :: dumpJson v)
  | (k, v) :: m :: fs =>
    ('"' :: (escString k.data ++ '"' :: ':' :: ' ' :: dumpJson v)) ++
    ',' :: ' ' :: dumpObj (m :: fs)

end

/-- `json.dumps` as a function on strings. -/
def json_dumps (j : Json) : String := String.mk (dumpJson j)

/-- Value of a hexadecimal digit accepted in a `\uXXXX` escape. -/
def hexVal (c : Char) : Option Nat :=
  if '0' ≤ c ∧ c ≤ '9' then some (c.toNat - 48)
  else if 'a' ≤ c ∧ c ≤ 'f' then some (c.toNat - 87)
  else if 'A' ≤ c ∧ c ≤ 'F' then some (c.toNat - 55)
  else none

/-- The single-character escapes accepted by the JSON string grammar. -/
def simpleEsc (c : Char) : Option Char :=
  if c = '"' then some '"'
  else if c = '\\' then some '\\'
  else if c = '/' then some '/'
  else if c = 'b' then some '\x08'
  else if c = 'f' then some '\x0c'
  else if c = 'n' then some '\n'
  else if c = 'r' then some '\r'
  else if c = 't' then some '\t'
  else none

/-- Prepend a decoded character to a string-parser result. -/
def consResult (c : Char) (o : Option (List Char × List Char)) :
    Option (List Char × List Char) :=
  match o with
  | some (s, r) => some (c :: s, r)
  | none => none

/-- Four hexadecimal digits at the head of the input, decoded to their
value, as required after `\u`. -/
def parseHex4 (cs : List Char) : Option (Nat × List Char) :=
  match cs with
  | h1 :: h2 :: h3 :: h4 :: r =>
    match hexVal h1, hexVal h2, hexVal h3, hexVal h4 with
    | some a, some b, some d, some e => some (a * 4096 + b * 256 + d * 16 + e, r)
    | _, _, _, _ => none
  | _ => none

/-- JSON string body parser (the opening quote already consumed):
returns the decoded characters and the input after the closing quote.
Surrogate pairs in `\u` escapes are recombined; raw control characters
are rejected, as in CPython's strict mode.  Structurally recursive on
the fuel, which falls by one per decoded character, each of which
consumes at least one input character. -/
def parseJStrF : Nat → List Char → Option (List Char × List Char)
  | 0, _ => none
  | f + 1, cs =>
    match cs with
    | [] => none
    | c :: cs1 =>
      if c = '"' then some ([], cs1)
      else if c = '\\' then
        match cs1 with
        | [] => none
        | e :: cs2 =>
          if e = 'u' then
            match parseHex4 cs2 with
            | none => none
            | some (n, cs3) =>
              if 0xd800 ≤ n ∧ n < 0xdc00 then
                match cs3 with
                | b1 :: u1 :: cs4 =>
                  if b1 = '\\' ∧ u1 = 'u' then
                    match parseHex4 cs4 with
                    | some (m, cs5) =>
                      if 0xdc00 ≤ m ∧ m < 0xe000 then
                        consResult
                          (Char.ofNat (0x10000 + (n - 0xd800) * 0x400 + (m - 0xdc00)))
                          (parseJStrF f cs5)
                      else none
                    | none => none
                  else none
                | _ => none
              else if 0xdc00 ≤ n ∧ n < 0xe000 then none
              else consResult (Char.ofNat n) (parseJStrF f cs3)
          else
            match simpleEsc e with
            | some d => consResult d (parseJStrF f cs2)
            | none => none
      else if c.toNat < 0x20 then none
      else consResult c (parseJStrF f cs1)

/-- JSON string body parser with enough fuel for its input: each
decoded character consumes at least one input character, so
`length + 1` steps always reach the closing quote or an error. -/
def parseJStr (cs : List Char) : Option (List Char × List Char) :=
  parseJStrF (cs.length + 1) cs

/-- The JSON inter-token whitespace characters (` `, tab, LF, CR). -/
def isJsonWs (c : Char) : Bool := c == ' ' || c == '\t' || c == '\n' || c == '\r'

/-- Skip inter-token whitespace. -/
def skipWs : List Char → List Char
  | [] => []
  | c :: cs => if isJsonWs c then skipWs cs else c :: cs

/-- ASCII decimal digit test. -/
def isDigitCh (c : Char) : Bool := if '0' ≤ c ∧ c ≤ '9' then true else false

/-- Longest digit run at the head of the input. -/
def spanDigits : List Char → List Char × List Char
  | [] => ([], [])
  | c :: cs =>
    if isDigitCh c then
      match spanDigits cs with
      | (ds, r) => (c :: ds, r)
    else ([], c :: cs)

/-- Integer part of a JSON number: `0`, or a nonzero digit followed by
digits (leading zeros rejected). -/
def parseIntPart : List Char → Option (List Char × List Char)
  | [] => none
  | c :: cs =>
    if c = '0' then some (['0'], cs)
    else if isDigitCh c then
      match spanDigits cs with
      | (ds, r) => some (c :: ds, r)
    else none

/-- Optional fraction part `.digits`. -/
def parseFracPart (cs : List Char) : Option (List Char × List Char) :=
  match cs with
  | '.' :: cs2 =>
    match spanDigits cs2 with
    | ([], _) => none
    | (ds, r) => some ('.' :: ds, r)
  | _ => some ([], cs)

/-- Exponent digits after `e`/`E` has been consumed (`eh`), with an
optional sign. -/
def parseExpAfter (eh : Char) (cs : List Char) : Option (List Char × List Char) :=
  match cs with
  | '+' :: cs2 =>
    match spanDigits cs2 with
    | ([], _) => none
    | (ds, r) => some (eh :: '+' :: ds, r)
  | '-' :: cs2 =>
    match spanDigits cs2 with
    | ([], _) => none
    | (ds, r) => some (eh :: '-' :: ds, r)
  | _ =>
    match spanDigits cs with
    | ([], _) => none
    | (ds, r) => some (eh :: ds, r)

/-- Optional exponent part. -/
def parseExpPart : List Char → Option (List Char × List Char)
  | 'e' :: cs => parseExpAfter 'e' cs
  | 'E' :: cs => parseExpAfter 'E' cs
  | cs => some ([], cs)

/-- Unsigned JSON number lexeme. -/
def parseNumBody (cs : List Char) : Option (List Char × List Char) :=
  match parseIntPart cs with
  | none => none
  | some (ip, r1) =>
    match parseFracPart r1 with
    | none => none
    | some (fp, r2) =>
      match parseExpPart r2 with
      | none => none
      | some (ep, r3) => some (ip ++ fp ++ ep, r3)

/-- JSON number lexeme with optional leading minus. -/
def parseNumTok : List Char → Option (List Char × List Char)
  | '-' :: cs =>
    match parseNumBody cs with
    | some (l, r) => some ('-' :: l, r)
    | none => none
  | cs => parseNumBody cs

/-- Python `dict` item assignment `d[k] = v` on an insertion-ordered
association list: an existing key keeps its position and gets the new
value, a new key is appended. -/
def objUpdate : List (String × Json) → String → Json → List (String × Json)
  | [], k, v => [(k, v)]
  | (k2, v2) :: rest, k, v =>
    if k2 = k then (k, v) :: rest else (k2, v2) :: objUpdate rest k v

/-- Recursion mode of the JSON parser: a value, the members of an object
being accumulated into a Python dict, or the elements of an array. -/
inductive PMode where
  | value : PMode
  | members : List (String × Json) → PMode
  | elements : List Json → PMode

/-- Intermediate parser result for each mode. -/
inductive PRes where
  | val : Json → PRes
  | fields : List (String × Json) → PRes
  | items : List Json → PRes

/-- Strip an expected literal continuation (e.g. `rue` after `t`),
failing exactly when the input does not continue with it. -/
def stripLit (lit : List Char) (cs : List Char) : Option (List Char) :=
  if lit.isPrefixOf cs then some (cs.drop lit.length) else none

/-- Recursive-descent JSON parser behind `json.loads`, structurally
recursive on the fuel, which falls by one on each nested parse.  In
`.value` mode it accepts the CPython extensions `NaN`, `Infinity` and
`-Infinity` in addition to standard JSON. -/
def parseF : Nat → PMode → List Char → Option (PRes × List Char)
  | 0, _, _ => none
  | f + 1, .value, cs =>
    match skipWs cs with
    | [] => none
    | c :: cs1 =>
      if c = '\x7b' then
        match skipWs cs1 with
        | [] => none
        | c2 :: cs2 =>
          if c2 = '\x7d' then some (.val (.obj []), cs2)
          else
            match parseF f (.members []) (c2 :: cs2) with
            | some (.fields fs, r) => some (.val (.obj fs), r)
            | _ => none
      else if c = '[' then
        match skipWs cs1 with
        | [] => none
        | c2 :: cs2 =>
          if c2 = ']' then some (.val (.arr []), cs2)
          else
            match parseF f (.elements []) (c2 :: cs2) with
            | some (.items xs, r) => some (.val (.arr xs), r)
            | _ => none
      else if c = '"' then
        match parseJStr cs1 with
        | some (s, r) => some (.val (.str (String.mk s)), r)
        | none => none
      else if c = 't' then
        match stripLit ['r', 'u', 'e'] cs1 with
        | some r => some (.val (.bool true), r)
        | none => none
      else if c = 'f' then
        match stripLit ['a', 'l', 's', 'e'] cs1 with
        | some r => some (.val (.bool false), r)
        | none => none
      else if c = 'n' then
        match stripLit ['u', 'l', 'l'] cs1 with
        | some r => some (.val .null, r)
        | none => none
      else if c = 'N' then
        match stripLit ['a', 'N'] cs1 with
        | some r => some (.val (.num "NaN"), r)
        | none => none
      else if c = 'I' then
        match stripLit ['n', 'f', 'i', 'n', 'i', 't', 'y'] cs1 with
        | some r => some (.val (.num "Infinity"), r)
        | none => none
      else if c = '-' then
        match stripLit ['I', 'n', 'f', 'i', 'n', 'i', 't', 'y'] cs1 with
        | some r => some (.val (.num "-Infinity"), r)
        | none =>
          match parseNumTok (c :: cs1) with
          | some (l, r) => some (.val (.num (String.mk l)), r)
          | none => none
      else
        match parseNumTok (c :: cs1) with
        | some (l, r) => some (.val (.num (String.mk l)), r)
        | none => none
  | f + 1, .members acc, cs =>
    match cs with
    | [] => none
    | c :: cs1 =>
      if c = '"' then
        match parseJStr cs1 with
        | some (k, r1) =>
          match skipWs r1 with
          | [] => none
          | c2 :: r2 =>
            if c2 = ':' then
              match parseF f .value r2 with
              | some (.val v, r3) =>
                match skipWs r3 with
                | [] => none
                | c3 :: r4 =>
                  if c3 = ',' then
                    parseF f (.members (objUpdate acc (String.mk k) v)) (skipWs r4)
                  else if c3 = '\x7d' then
                    some (.fields (objUpdate acc (String.mk k) v), r4)
                  else none
              | _ => none
            else none
        | none => none
      else none
  | f + 1, .elements acc, cs =>
    match parseF f .value cs with
    | some (.val v, r1) =>
      match skipWs r1 with
      | [] => none
      | c2 :: r2 =>
        if c2 = ',' then parseF f (.elements (acc ++ [v])) r2
        else if c2 = ']' then some (.items (acc ++ [v]), r2)
        else none
    | _ => none

/-- `json.loads`: parse one value, then require only whitespace to
remain.  The fuel `length + 9` strictly exceeds the number of fuel
decrements possible on the input, each of which consumes at least one
character. -/
def json_loads (s : String) : Option Json :=
  match parseF (s.data.length + 9) .value s.data with
  | some (.val j, r) => if skipWs r = [] then some j else none
  | _ => none

/-- `provider_data_header` from `src/main.py`: the JSON object it
serializes, with the two fields in source order. -/
def providerDataJson (api_key : String) : Json :=
  .obj [("passthrough_api_key", .str api_key),
        ("passthrough_url", .str "https://api.openai.com")]

/-- `provider_data_header` from `src/main.py`: a one-entry mapping from
the custom header name to the `json.dumps` of `providerDataJson`. -/
def provider_data_header (api_key : String) : List (String × String) :=
  [("X-LlamaStack-Provider-Data", json_dumps (providerDataJson api_key))]

/-- The Python exceptions the client can raise while handling a
response, plus the `httpx` status error from `raise_for_status`. -/
inductive PyError where
  | keyError : String → PyError
  | indexError : PyError
  | typeError : PyError
  | attributeError : PyError
  | jsonDecodeError : PyError
  | httpStatusError : Nat → PyError

/-- First-match lookup in an (already duplicate-free) field list. -/
def lookupField : List (String × Json) → String → Option Json
  | [], _ => none
  | (k2, v) :: rest, k => if k2 = k then some v else lookupField rest k

/-- Python `x[k]` for a string key `k`: field lookup on a dict
(`KeyError` when absent), `TypeError` on any non-dict value. -/
def pySubscript (j : Json) (k : String) : Except PyError Json :=
  match j with
  | .obj fs =>
    match lookupField fs k with
    | some v => .ok v
    | none => .error (.keyError k)
  | _ => .error .typeError

/-- Python `x[0]`: head of a list (`IndexError` when empty), first
character of a string, `KeyError` on a dict (JSON-decoded dicts have no
integer keys), `TypeError` otherwise. -/
def pyIndexZero (j : Json) : Except PyError Json :=
  match j with
  | .arr [] => .error .indexError
  | .arr (x :: _) => .ok x
  | .str s =>
    match s.data with
    | [] => .error .indexError
    | c :: _ => .ok (.str (String.mk [c]))
  | .obj _ => .error (.keyError "0")
  | _ => .error .typeError

/-- Python `x.get(k)` on a dict: the value when present, `None` when
absent (both Python `None` and JSON `null` are modelled by `Json.null`,
which behave identically downstream); `AttributeError` when `x` is not
a dict. -/
def pyGet (j : Json) (k : String) : Except PyError Json :=
  match j with
  | .obj fs =>
    match lookupField fs k with
    | some v => .ok v
    | none => .ok .null
  | _ => .error .attributeError

/-- Whether a numeric lexeme denotes zero: every mantissa digit is `0`
(`NaN`/`Infinity` lexemes are nonzero). -/
def pyNumIsZero (l : String) : Bool :=
  if l.data.any (fun ch => ch == 'N' || ch == 'I') then false
  else (l.data.takeWhile (fun ch => !(ch == 'e' || ch == 'E'))).all
    (fun ch => ch == '0' || !isDigitCh ch)

/-- Python truthiness of a decoded JSON value (`if content:`). -/
def pyTruthy : Json → Bool
  | .null => false
  | .bool b => b
  | .num l => !pyNumIsZero l
  | .str s => !s.data.isEmpty
  | .arr xs => !xs.isEmpty
  | .obj fs => !fs.isEmpty

/-- Python `str(x)` as passed to `print`: exact for strings, `None`,
booleans and numeric lexemes; containers (which no chat response puts in
a `content` field) are approximated by their JSON rendering where
CPython would use `repr`. -/
def pyStr (j : Json) : String :=
  match j with
  | .str s => s
  | .null => "None"
  | .bool true => "True"
  | .bool false => "False"
  | .num l => l
  | j2 => String.mk (dumpJson j2)

/-- `chunk["choices"][0]["delta"].get("content")` from
`chat_streaming`, with Python's exception behaviour at every step. -/
def deltaContent (chunk : Json) : Except PyError Json :=
  match pySubscript chunk "choices" with
  | .error e => .error e
  | .ok choices =>
    match pyIndexZero choices with
    | .error e => .error e
    | .ok first =>
      match pySubscript first "delta" with
      | .error e => .error e
      | .ok delta => pyGet delta "content"

/-- `data["choices"][0]["message"]["content"]` from `chat`, with
Python's exception behaviour at every step. -/
def messageContent (data : Json) : Except PyError Json :=
  match pySubscript data "choices" with
  | .error e => .error e
  | .ok choices =>
    match pyIndexZero choices with
    | .error e => .error e
    | .ok first =>
      match pySubscript first "message" with
      | .error e => .error e
      | .ok msg => pySubscript msg "content"

/-- The characters of the SSE data-frame marker `"data: "`. -/
def dataMarker : List Char := ['d', 'a', 't', 'a', ':', ' ']

/-- `line.startswith("data: ")`. -/
def startsWithData (line : String) : Bool := dataMarker.isPrefixOf line.data

/-- `line.removeprefix("data: ")`: drops the six marker characters when
the line starts with the marker, otherwise returns the line unchanged. -/
def removeMarker (line : String) : String :=
  if dataMarker.isPrefixOf line.data then String.mk (line.data.drop 6) else line

/-- The whitespace stripped by Python `str.strip()` (restricted to the
ASCII whitespace characters; the Unicode extras never appear here). -/
def isPySpace (c : Char) : Bool :=
  c == ' ' || c == '\t' || c == '\n' || c == '\r' || c == '\x0b' || c == '\x0c'

/-- Drop leading Python whitespace. -/
def dropLeadingSpace : List Char → List Char
  | [] => []
  | c :: cs => if isPySpace c then dropLeadingSpace cs else c :: cs

/-- Python `payload.strip()`: whitespace removed from both ends. -/
def pyStrip (s : String) : String :=
  String.mk (dropLeadingSpace (dropLeadingSpace s.data.reverse).reverse)

/-- The decode loop of `chat_streaming` (lines 70–80 of `src/main.py`)
over the remaining lines, given the output already emitted by the loop.
Returns the loop's total emitted output, including the trailing newline
printed after the loop ends — reached both on `break` at the `[DONE]`
sentinel and on exhaustion of the line iterator.  A raised exception is
an `Except.error` carrying the exception and the output emitted up to
that point (the final `print()` never runs). -/
def streamLoop : List String → String → Except (PyError × String) String
  | [], out => .ok (out ++ "\n")
  | line :: rest, out =>
    if startsWithData line then
      if pyStrip (removeMarker line) = "[DONE]" then .ok (out ++ "\n")
      else
        match json_loads (removeMarker line) with
        | none => .error (.jsonDecodeError, out)
        | some chunk =>
          match deltaContent chunk with
          | .error e => .error (e, out)
          | .ok content =>
            if pyTruthy content then streamLoop rest (out ++ pyStr content)
            else streamLoop rest out
    else streamLoop rest out

/-- A non-streaming HTTP response: its status code and body text. -/
structure HttpResponse where
  status : Nat
  body : String

/-- A streaming HTTP response: its status code and the lines produced
by `response.iter_lines()` (newline terminators already removed). -/
structure StreamHttpResponse where
  status : Nat
  lines : List String

/-- `httpx.Response.is_success`, the condition under which
`raise_for_status()` does not raise: a 2xx status. -/
def isSuccessStatus (s : Nat) : Bool := if 200 ≤ s ∧ s < 300 then true else false

/-- `chat` from `src/main.py`, from the response it receives to the
stdout it appends paired with the exception it raises (if any):
`raise_for_status()` first (an `httpx.HTTPStatusError` carrying the
status, before anything is printed), then `response.json()`, then the
banner line, then the extracted message content.  The request side
(URL, headers, body, timeout) has no effect on this behaviour. -/
def chatRun (resp : HttpResponse) : String × Option PyError :=
  if isSuccessStatus resp.status then
    match json_loads resp.body with
    | none => ("", some .jsonDecodeError)
    | some data =>
      match messageContent data with
      | .error e => ("=== Regular ===" ++ "\n", some e)
      | .ok content => ("=== Regular ===" ++ "\n" ++ pyStr content ++ "\n", none)
  else ("", some (.httpStatusError resp.status))

/-- The banner `chat_streaming` prints before opening the stream. -/
def streamingBanner : String := "\n=== Streaming ===" ++ "\n"

/-- `chat_streaming` from `src/main.py`, from the response to the stdout
it appends paired with the exception it raises (if any): the banner is
printed before the request, then `raise_for_status()` (so a status error
leaves only the banner — no line of the body is ever read), then the
decode loop `streamLoop`. -/
def chatStreamingRun (resp : StreamHttpResponse) : String × Option PyError :=
  if isSuccessStatus resp.status then
    match streamLoop resp.lines "" with
    | .ok out => (streamingBanner ++ out, none)
    | .error (e, outSoFar) => (streamingBanner ++ outSoFar, some e)
  else (streamingBanner, some (.httpStatusError resp.status))

/-- The diagnostic `main` exits with when the credential is missing. -/
def missingKeyMessage : String := "Set OPENAI_API_KEY environment variable"

/-- What the entry point does: exit via `SystemExit` with the given code
and message before any network activity, or proceed to call
`chat api_key` and then `chat_streaming api_key` — `runCalls` is the
only outcome in which either chat call is invoked or the header builder
runs. -/
inductive MainOutcome where
  | exitWith : Nat → String → MainOutcome
  | runCalls : String → MainOutcome

/-- `main` from `src/main.py` as a function of
`os.environ.get("OPENAI_API_KEY")`.  `if not api_key:` is taken both
when the variable is absent (`None`) and when it is set to the empty
string (both are falsy), and `raise SystemExit(msg)` prints `msg` to
stderr and exits with code 1. -/
def main (env_key : Option String) : MainOutcome :=
  match env_key with
  | none => .exitWith 1 missingKeyMessage
  | some k => if k = "" then .exitWith 1 missingKeyMessage else .runCalls k

/-!
## Supporting lemmas

The stepping facts used to settle the claims: a character-level
roundtrip between `json.dumps` string escaping and the string parser,
and the evaluation of `json_loads` on the serialized provider-data
header for an arbitrary credential.
-/

theorem hexVal_toHexDigit (n : Nat) (h : n < 16) : hexVal (toHexDigit n) = some n := by
  interval_cases n <;> decide

theorem hexVal_toHexDigit_mod (n : Nat) : hexVal (toHexDigit (n % 16)) = some (n % 16) :=
  hexVal_toHexDigit _ (Nat.mod_lt _ (by omega))

theorem charValidNat (c : Char) : c.toNat < 55296 ∨ (57343 < c.toNat ∧ c.toNat < 1114112) :=
  c.valid

theorem consResult_some (c : Char) (s r : List Char) :
    consResult c (some (s, r)) = some (c :: s, r) := rfl

theorem parseJStrF_quote (f : Nat) (cs : List Char) :
    parseJStrF (f + 1) ('"' :: cs) = some ([], cs) := by
  simp [parseJStrF]

theorem parseJStrF_simple (f : Nat) (e d : Char) (cs : List Char)
    (he : e ≠ 'u') (hd : simpleEsc e = some d) :
    parseJStrF (f + 1) ('\\' :: e :: cs) = consResult d (parseJStrF f cs) := by
  simp [parseJStrF, he, hd]

theorem parseJStrF_plain (f : Nat) (c : Char) (cs : List Char)
    (h1 : c ≠ '"') (h2 : c ≠ '\\') (h3 : ¬ c.toNat < 0x20) :
    parseJStrF (f + 1) (c :: cs) = consResult c (parseJStrF f cs) := by
  simp [parseJStrF, h1, h2, h3]

theorem parseJStrF_u_single (f : Nat) (d1 d2 d3 d4 : Char) (a b d e : Nat)
    (cs : List Char)
    (k1 : hexVal d1 = some a) (k2 : hexVal d2 = some b)
    (k3 : hexVal d3 = some d) (k4 : hexVal d4 = some e)
    (hs : ¬ (0xd800 ≤ a * 4096 + b * 256 + d * 16 + e ∧
             a * 4096 + b * 256 + d * 16 + e < 0xe000)) :
    parseJStrF (f + 1) ('\\' :: 'u' :: d1 :: d2 :: d3 :: d4 :: cs) =
      consResult (Char.ofNat (a * 4096 + b * 256 + d * 16 + e)) (parseJStrF f cs) := by
  simp [parseJStrF, parseHex4, k1, k2, k3, k4]
  rw [if_neg (by omega), if_neg (by omega)]

theorem parseJStrF_u_pair (f : Nat) (d1 d2 d3 d4 g1 g2 g3 g4 : Char)
    (a b d e a2 b2 dd2 e2 : Nat) (cs : List Char)
    (k1 : hexVal d1 = some a) (k2 : hexVal d2 = some b)
    (k3 : hexVal d3 = some d) (k4 : hexVal d4 = some e)
    (k5 : hexVal g1 = some a2) (k6 : hexVal g2 = some b2)
    (k7 : hexVal g3 = some dd2) (k8 : hexVal g4 = some e2)
    (hr1 : 0xd800 ≤ a * 4096 + b * 256 + d * 16 + e ∧
           a * 4096 + b * 256 + d * 16 + e < 0xdc00)
    (hr2 : 0xdc00 ≤ a2 * 4096 + b2 * 256 + dd2 * 16 + e2 ∧
           a2 * 4096 + b2 * 256 + dd2 * 16 + e2 < 0xe000) :
    parseJStrF (f + 1)
      ('\\' :: 'u' :: d1 :: d2 :: d3 :: d4 :: '\\' :: 'u' :: g1 :: g2 :: g3 :: g4 :: cs) =
      consResult
        (Char.ofNat (0x10000 + (a * 4096 + b * 256 + d * 16 + e - 0xd800) * 0x400 +
          (a2 * 4096 + b2 * 256 + dd2 * 16 + e2 - 0xdc00)))
        (parseJStrF f cs) := by
  simp [parseJStrF, parseHex4, k1, k2, k3, k4, k5, k6, k7, k8]
  rw [if_pos hr1, if_pos hr2]

theorem parseJStrF_esc (s : List Char) :
    ∀ (f : Nat) (rest : List Char), s.length + 1 ≤ f →
      parseJStrF f (escString s ++ '"' :: rest) = some (s, rest) := by
  induction s with
  | nil =>
    intro f rest hf
    obtain ⟨f2, rfl⟩ : ∃ f2, f = f2 + 1 := ⟨f - 1, by omega⟩
    rw [escString, List.nil_append, parseJStrF_quote]
  | cons c s ih =>
    intro f rest hf
    obtain ⟨f2, rfl⟩ : ∃ f2, f = f2 + 1 := ⟨f - 1, by omega⟩
    have hf2 : s.length + 1 ≤ f2 := by simp at hf; omega
    have hv := charValidNat c
    rw [escString, List.append_assoc]
    unfold escChar
    split_ifs with h1 h2 h3 h4 h5 h6 h7 h8 h9
    · subst h1
      rw [show (['\\', '"'] : List Char) ++ (escString s ++ '"' :: rest) =
          '\\' :: '"' :: (escString s ++ '"' :: rest) from rfl]
      rw [parseJStrF_simple f2 '"' '"' _ (by decide) rfl, ih f2 rest hf2, consResult_some]
    · subst h2
      rw [show (['\\', '\\'] : List Char) ++ (escString s ++ '"' :: rest) =
          '\\' :: '\\' :: (escString s ++ '"' :: rest) from rfl]
      rw [parseJStrF_simple f2 '\\' '\\' _ (by decide) rfl, ih f2 rest hf2, consResult_some]
    · subst h3
      rw [show (['\\', 'b'] : List Char) ++ (escString s ++ '"' :: rest) =
          '\\' :: 'b' :: (escString s ++ '"' :: rest) from rfl]
      rw [parseJStrF_simple f2 'b' '\x08' _ (by decide) rfl, ih f2 rest hf2, consResult_some]
    · subst h4
      rw [show (['\\', 'f'] : List Char) ++ (escString s ++ '"' :: rest) =
          '\\' :: 'f' :: (escString s ++ '"' :: rest) from rfl]
      rw [parseJStrF_simple f2 'f' '\x0c' _ (by decide) rfl, ih f2 rest hf2, consResult_some]
    · subst h5
      rw [show (['\\', 'n'] : List Char) ++ (escString s ++ '"' :: rest) =
          '\\' :: 'n' :: (escString s ++ '"' :: rest) from rfl]
      rw [parseJStrF_simple f2 'n' '\n' _ (by decide) rfl, ih f2 rest hf2, consResult_some]
    · subst h6
      rw [show (['\\', 'r'] : List Char) ++ (escString s ++ '"' :: rest) =
          '\\' :: 'r' :: (escString s ++ '"' :: rest) from rfl]
      rw [parseJStrF_simple f2 'r' '\x0d' _ (by decide) rfl, ih f2 rest hf2, consResult_some]
    · subst h7
      rw [show (['\\', 't'] : List Char) ++ (escString s ++ '"' :: rest) =
          '\\' :: 't' :: (escString s ++ '"' :: rest) from rfl]
      rw [parseJStrF_simple f2 't' '\t' _ (by decide) rfl, ih f2 rest hf2, consResult_some]
    · -- \uXXXX escape for a BMP character
      rw [show ('\\' :: 'u' :: hex4 c.toNat) ++ (escString s ++ '"' :: rest) =
          '\\' :: 'u' :: toHexDigit (c.toNat / 4096 % 16) ::
            toHexDigit (c.toNat / 256 % 16) :: toHexDigit (c.toNat / 16 % 16) ::
            toHexDigit (c.toNat % 16) :: (escString s ++ '"' :: rest) from by
        simp [hex4, List.cons_append]]
      rw [parseJStrF_u_single f2 _ _ _ _ _ _ _ _ _ (hexVal_toHexDigit_mod _)
        (hexVal_toHexDigit_mod _) (hexVal_toHexDigit_mod _) (hexVal_toHexDigit_mod _)
        (by omega)]
      have hA : c.toNat / 4096 % 16 * 4096 + c.toNat / 256 % 16 * 256 +
          c.toNat / 16 % 16 * 16 + c.toNat % 16 = c.toNat := by omega
      rw [hA, ih f2 rest hf2, consResult_some, Char.ofNat_toNat]
    · -- astral character: surrogate pair
      rw [show (('\\' :: 'u' :: hex4 (0xd800 + (c.toNat - 0x10000) / 0x400)) ++
            ('\\' :: 'u' :: hex4 (0xdc00 + (c.toNat - 0x10000) % 0x400))) ++
            (escString s ++ '"' :: rest) =
          '\\' :: 'u' :: toHexDigit ((55296 + (c.toNat - 65536) / 1024) / 4096 % 16) ::
            toHexDigit ((55296 + (c.toNat - 65536) / 1024) / 256 % 16) ::
            toHexDigit ((55296 + (c.toNat - 65536) / 1024) / 16 % 16) ::
            toHexDigit ((55296 + (c.toNat - 65536) / 1024) % 16) ::
          '\\' :: 'u' :: toHexDigit ((56320 + (c.toNat - 65536) % 1024) / 4096 % 16) ::
            toHexDigit ((56320 + (c.toNat - 65536) % 1024) / 256 % 16) ::
            toHexDigit ((56320 + (c.toNat - 65536) % 1024) / 16 % 16) ::
            toHexDigit ((56320 + (c.toNat - 65536) % 1024) % 16) ::
            (escString s ++ '"' :: rest) from by
        simp [hex4, List.cons_append]]
      rw [parseJStrF_u_pair f2 _ _ _ _ _ _ _ _ _ _ _ _ _ _ _ _ _
        (hexVal_toHexDigit_mod _) (hexVal_toHexDigit_mod _) (hexVal_toHexDigit_mod _)
        (hexVal_toHexDigit_mod _) (hexVal_toHexDigit_mod _) (hexVal_toHexDigit_mod _)
        (hexVal_toHexDigit_mod _) (hexVal_toHexDigit_mod _) (by constructor <;> omega)
        (by constructor <;> omega)]
      have hC : 65536 +
          ((55296 + (c.toNat - 65536) / 1024) / 4096 % 16 * 4096 +
           (55296 + (c.toNat - 65536) / 1024) / 256 % 16 * 256 +
           (55296 + (c.toNat - 65536) / 1024) / 16 % 16 * 16 +
           (55296 + (c.toNat - 65536) / 1024) % 16 - 55296) * 1024 +
          ((56320 + (c.toNat - 65536) % 1024) / 4096 % 16 * 4096 +
           (56320 + (c.toNat - 65536) % 1024) / 256 % 16 * 256 +
           (56320 + (c.toNat - 65536) % 1024) / 16 % 16 * 16 +
           (56320 + (c.toNat - 65536) % 1024) % 16 - 56320) = c.toNat := by omega
      rw [hC, ih f2 rest hf2, consResult_some, Char.ofNat_toNat]
    · -- plain character
      rw [List.singleton_append, parseJStrF_plain f2 c _ h1 h2 (by omega),
        ih f2 rest hf2, consResult_some]

theorem escChar_length_pos (c : Char) : 1 ≤ (escChar c).length := by
  unfold escChar
  split_ifs <;> simp [hex4]

theorem escString_length_ge (s : List Char) : s.length ≤ (escString s).length := by
  induction s with
  | nil => simp [escString]
  | cons c s ih =>
    have := escChar_length_pos c
    simp only [escString, List.length_append, List.length_cons]
    omega

theorem parseJStr_esc (s rest : List Char) :
    parseJStr (escString s ++ '"' :: rest) = some (s, rest) := by
  have h := escString_length_ge s
  unfold parseJStr
  apply parseJStrF_esc
  simp only [List.length_append, List.length_cons]
  omega



theorem stringMkData (s : String) : String.mk s.data = s := rfl

theorem parseF_value_objStep (f : Nat) (cs : List Char)
    (fs : List (String × Json)) (r : List Char)
    (h : parseF f (.members []) ('"' :: cs) = some (.fields fs, r)) :
    parseF (f + 1) .value ('\x7b' :: '"' :: cs) = some (.val (.obj fs), r) := by
  simp [parseF, skipWs, isJsonWs, h]

theorem parseF_value_str (f : Nat) (cs s r : List Char)
    (h : parseJStr cs = some (s, r)) :
    parseF (f + 1) .value (' ' :: '"' :: cs) = some (.val (.str (String.mk s)), r) := by
  simp [parseF, skipWs, isJsonWs, h]

theorem parseF_members_cont (f : Nat) (acc : List (String × Json))
    (kcs k vcs : List Char) (v : Json) (r3 : List Char)
    (h1 : parseJStr kcs = some (k, ':' :: ' ' :: vcs))
    (h2 : parseF f .value (' ' :: vcs) = some (.val v, r3)) :
    parseF (f + 1) (.members acc) ('"' :: kcs) =
      (match skipWs r3 with
       | [] => none
       | c3 :: r4 =>
         if c3 = ',' then parseF f (.members (objUpdate acc (String.mk k) v)) (skipWs r4)
         else if c3 = '\x7d' then some (.fields (objUpdate acc (String.mk k) v), r4)
         else none) := by
  simp [parseF, skipWs, isJsonWs, h1, h2]

theorem parse_header (c : String) (f : Nat) (rest : List Char) :
    parseF (f + 4) .value
      ('\x7b' :: '"' :: ("passthrough_api_key".data ++ ('"' :: ':' :: ' ' :: '"' ::
        (escString c.data ++ ('"' :: ',' :: ' ' :: '"' :: ("passthrough_url".data ++
          ('"' :: ':' :: ' ' :: '"' :: ("https://api.openai.com".data ++
            ('"' :: '\x7d' :: rest))))))))) =
      some (.val (providerDataJson c), rest) := by
  have e1 : escString "passthrough_api_key".data = "passthrough_api_key".data := by decide
  have e2 : escString "passthrough_url".data = "passthrough_url".data := by decide
  have e3 : escString "https://api.openai.com".data = "https://api.openai.com".data := by
    decide
  have hk1 : ∀ R : List Char, parseJStr ("passthrough_api_key".data ++ '"' :: R) =
      some ("passthrough_api_key".data, R) := by
    intro R; have h := parseJStr_esc "passthrough_api_key".data R; rwa [e1] at h
  have hk2 : ∀ R : List Char, parseJStr ("passthrough_url".data ++ '"' :: R) =
      some ("passthrough_url".data, R) := by
    intro R; have h := parseJStr_esc "passthrough_url".data R; rwa [e2] at h
  have hk3 : ∀ R : List Char, parseJStr ("https://api.openai.com".data ++ '"' :: R) =
      some ("https://api.openai.com".data, R) := by
    intro R; have h := parseJStr_esc "https://api.openai.com".data R; rwa [e3] at h
  -- second member: parse the fixed url value
  have hv2 : parseF (f + 1) .value (' ' :: '"' ::
      ("https://api.openai.com".data ++ ('"' :: '\x7d' :: rest))) =
      some (.val (.str "https://api.openai.com"), '\x7d' :: rest) := by
    have h := parseF_value_str f _ _ _ (hk3 ('\x7d' :: rest))
    rwa [stringMkData] at h
  -- second member of the object
  have hm2 : parseF (f + 2) (.members [("passthrough_api_key", .str c)])
      ('"' :: ("passthrough_url".data ++ ('"' :: ':' :: ' ' :: '"' ::
        ("https://api.openai.com".data ++ ('"' :: '\x7d' :: rest))))) =
      some (.fields [("passthrough_api_key", .str c),
        ("passthrough_url", .str "https://api.openai.com")], rest) := by
    have h := parseF_members_cont (f + 1) [("passthrough_api_key", .str c)]
      _ _ _ _ _ (hk2 (':' :: ' ' :: '"' ::
        ("https://api.openai.com".data ++ ('"' :: '\x7d' :: rest)))) hv2
    rw [h]
    simp [skipWs, isJsonWs, objUpdate, stringMkData]
  -- first member: parse the credential value
  have hv1 : parseF (f + 2) .value (' ' :: '"' :: (escString c.data ++ ('"' :: ',' ::
      ' ' :: '"' :: ("passthrough_url".data ++ ('"' :: ':' :: ' ' :: '"' ::
        ("https://api.openai.com".data ++ ('"' :: '\x7d' :: rest))))))) =
      some (.val (.str c), ',' :: ' ' :: '"' :: ("passthrough_url".data ++
        ('"' :: ':' :: ' ' :: '"' :: ("https://api.openai.com".data ++
          ('"' :: '\x7d' :: rest))))) := by
    have h := parseF_value_str (f + 1) _ _ _ (parseJStr_esc c.data (',' :: ' ' :: '"' :: ("passthrough_url".data ++ ('"' :: ':' :: ' ' :: '"' :: ("https://api.openai.com".data ++ ('"' :: '\x7d' :: rest))))))
    rwa [stringMkData] at h
  -- the whole member list
  have hm1 : parseF (f + 3) (.members []) ('"' :: ("passthrough_api_key".data ++
      ('"' :: ':' :: ' ' :: '"' :: (escString c.data ++ ('"' :: ',' :: ' ' :: '"' ::
        ("passthrough_url".data ++ ('"' :: ':' :: ' ' :: '"' ::
          ("https://api.openai.com".data ++ ('"' :: '\x7d' :: rest))))))))) =
      some (.fields [("passthrough_api_key", .str c),
        ("passthrough_url", .str "https://api.openai.com")], rest) := by
    have h := parseF_members_cont (f + 2) []
      _ _ _ _ _ (hk1 (':' :: ' ' :: '"' :: (escString c.data ++ ('"' :: ',' :: ' ' ::
        '"' :: ("passthrough_url".data ++ ('"' :: ':' :: ' ' :: '"' ::
          ("https://api.openai.com".data ++ ('"' :: '\x7d' :: rest)))))))) hv1
    rw [h]
    exact hm2
  rw [parseF_value_objStep (f + 3) _ _ _ hm1]
  rfl

theorem dataMk (l : List Char) : (String.mk l).data = l := rfl

theorem dumpJson_header (c : String) :
    dumpJson (providerDataJson c) =
      '\x7b' :: '"' :: ("passthrough_api_key".data ++ ('"' :: ':' :: ' ' :: '"' ::
        (escString c.data ++ ('"' :: ',' :: ' ' :: '"' :: ("passthrough_url".data ++
          ('"' :: ':' :: ' ' :: '"' :: ("https://api.openai.com".data ++
            ('"' :: '\x7d' :: ([] : List Char))))))))) := by
  have e1 : escString "passthrough_api_key".data = "passthrough_api_key".data := by decide
  have e2 : escString "passthrough_url".data = "passthrough_url".data := by decide
  have e3 : escString "https://api.openai.com".data = "https://api.openai.com".data := by
    decide
  simp [providerDataJson, dumpJson, dumpObj, e1, e2, e3]

theorem json_loads_header (c : String) :
    json_loads (json_dumps (providerDataJson c)) = some (providerDataJson c) := by
  unfold json_loads json_dumps
  rw [dataMk, dumpJson_header c]
  rw [show parseF
      (('\x7b' :: '"' :: ("passthrough_api_key".data ++ ('"' :: ':' :: ' ' :: '"' ::
        (escString c.data ++ ('"' :: ',' :: ' ' :: '"' :: ("passthrough_url".data ++
          ('"' :: ':' :: ' ' :: '"' :: ("https://api.openai.com".data ++
            ('"' :: '\x7d' :: ([] : List Char)))))))))).length + 9) .value
      ('\x7b' :: '"' :: ("passthrough_api_key".data ++ ('"' :: ':' :: ' ' :: '"' ::
        (escString c.data ++ ('"' :: ',' :: ' ' :: '"' :: ("passthrough_url".data ++
          ('"' :: ':' :: ' ' :: '"' :: ("https://api.openai.com".data ++
            ('"' :: '\x7d' :: ([] : List Char)))))))))) =
      some (.val (providerDataJson c), []) from
    parse_header c (('\x7b' :: '"' :: ("passthrough_api_key".data ++ ('"' :: ':' :: ' ' ::
      '"' :: (escString c.data ++ ('"' :: ',' :: ' ' :: '"' :: ("passthrough_url".data ++
        ('"' :: ':' :: ' ' :: '"' :: ("https://api.openai.com".data ++
          ('"' :: '\x7d' :: ([] : List Char)))))))))).length + 5) []]
  rfl

/-!
## Claims
-/

/-- Claim C1: for the streaming chat call, on a body whose lines are
the two `data:` frames carrying content fragments `A` and `B` followed
by `data: [DONE]`, the assembled loop output is exactly `"AB"` followed
by one trailing newline, with the fragments concatenated in arrival
order.  The first conjunct quantifies over arbitrary further lines: the
sentinel returns without reading them, so ending by sentinel is normal
completion (`Except.ok`); the second conjunct drops the sentinel line,
showing that exhausting the stream without a sentinel emits the same
trailing newline and is also normal completion. -/
theorem claim_c1 :
    (∀ rest : List String,
      streamLoop ("data: \x7b\"choices\":[\x7b\"delta\":\x7b\"content\":\"A\"\x7d\x7d]\x7d" ::
        "data: \x7b\"choices\":[\x7b\"delta\":\x7b\"content\":\"B\"\x7d\x7d]\x7d" ::
        "data: [DONE]" :: rest) "" = .ok ("AB" ++ "\n")) ∧
    streamLoop ["data: \x7b\"choices\":[\x7b\"delta\":\x7b\"content\":\"A\"\x7d\x7d]\x7d",
      "data: \x7b\"choices\":[\x7b\"delta\":\x7b\"content\":\"B\"\x7d\x7d]\x7d"] "" =
      .ok ("AB" ++ "\n") :=
  ⟨fun _ => rfl, rfl⟩

/-- Claim C2: for either chat call, a response with a non-2xx status
(such as 401) makes the call fail with the `httpx` status error carrying
that status, and the call produces no partial output: the synchronous
call has emitted nothing at all, and the streaming call has emitted only
its fixed pre-request banner — nothing derived from the response, whose
body/lines the result does not depend on. -/
theorem claim_c2 (status : Nat) (body : String) (lines : List String)
    (h : isSuccessStatus status = false) :
    chatRun ⟨status, body⟩ = ("", some (.httpStatusError status)) ∧
    chatStreamingRun ⟨status, lines⟩ =
      (streamingBanner, some (.httpStatusError status)) := by
  constructor
  · simp [chatRun, h]
  · simp [chatStreamingRun, h]

/-- Witness for C2 at status 401. -/
theorem claim_c2_witness :
    chatRun ⟨401, "unauthorized"⟩ = ("", some (.httpStatusError 401)) ∧
    chatStreamingRun ⟨401, ["data: x"]⟩ =
      (streamingBanner, some (.httpStatusError 401)) :=
  claim_c2 401 "unauthorized" ["data: x"] (by decide)

/-- Claim C3: in the streaming decode loop, a data frame whose payload
equals `[DONE]` after stripping surrounding whitespace stops processing
immediately: the result is independent of every line after it (none is
read or decoded), and control returns normally with the closing
newline. -/
theorem claim_c3 (line : String) (rest : List String) (out : String)
    (h1 : startsWithData line = true)
    (h2 : pyStrip (removeMarker line) = "[DONE]") :
    streamLoop (line :: rest) out = .ok (out ++ "\n") := by
  simp [streamLoop, h1, h2]

/-- Witness for C3: a sentinel line with surrounding whitespace stops
the loop before a malformed line that would otherwise raise. -/
theorem claim_c3_witness :
    streamLoop ["data:  [DONE] ", "data: \x7b\"bad\"\x7d"] "x" = .ok ("x" ++ "\n") :=
  claim_c3 "data:  [DONE] " ["data: \x7b\"bad\"\x7d"] "x" rfl rfl

/-- Claim C4: for every credential string `c` (including `""`), the
header builder returns a mapping with exactly one custom header, whose
value is the `json.dumps` encoding of an object with exactly two fields
— the fixed target URL and the supplied credential; decoding that value
recovers the two-field object with the credential field equal to `c`
exactly, so no validation or transformation is applied to `c`. -/
theorem claim_c4 (c : String) :
    provider_data_header c =
      [("X-LlamaStack-Provider-Data", json_dumps (providerDataJson c))] ∧
    json_loads (json_dumps (providerDataJson c)) =
      some (.obj [("passthrough_api_key", .str c),
                  ("passthrough_url", .str "https://api.openai.com")]) :=
  ⟨rfl, json_loads_header c⟩

/-- Claim C5: the synchronous chat call, given a success response with
body `{"choices":[{"message":{"content":"hi"}}]}`, emits exactly the
string `"hi"` as the extracted message (between the fixed banner line
and `print`'s terminating newline) and raises no error. -/
theorem claim_c5 :
    chatRun ⟨200, "\x7b\"choices\":[\x7b\"message\":\x7b\"content\":\"hi\"\x7d\x7d]\x7d"⟩ =
      ("=== Regular ===" ++ "\n" ++ "hi" ++ "\n", none) := rfl

/-- Claim C6: for a non-sentinel data frame, a fragment is emitted iff
the decoded chunk's delta object has a present and non-empty `content`
field: a present non-empty string content `s` is appended to the output
immediately — before any further line is processed — and an absent
(`Json.null`, i.e. Python `None` from `.get`) or empty content produces
no output and no exception, the loop simply continuing.  (The `flush`
on the emitting `print` is an I/O detail with no effect on the
assembled output.) -/
theorem claim_c6 (line : String) (rest : List String) (out : String) (chunk : Json)
    (h1 : startsWithData line = true)
    (h2 : pyStrip (removeMarker line) ≠ "[DONE]")
    (h3 : json_loads (removeMarker line) = some chunk) :
    (∀ s : String, deltaContent chunk = .ok (.str s) → s ≠ "" →
      streamLoop (line :: rest) out = streamLoop rest (out ++ s)) ∧
    (deltaContent chunk = .ok .null ∨ deltaContent chunk = .ok (.str "") →
      streamLoop (line :: rest) out = streamLoop rest out) := by
  constructor
  · intro s h4 h5
    have hs : s.data.isEmpty = false := by
      cases s with
      | mk l =>
        cases l with
        | nil => exact absurd rfl h5
        | cons a as => rfl
    simp [streamLoop, h1, h2, h3, h4, pyTruthy, pyStr, hs]
  · rintro (h4 | h4) <;> simp [streamLoop, h1, h2, h3, h4, pyTruthy]

/-- Witness for C6: a frame carrying content `Z` appends exactly `Z`. -/
theorem claim_c6_witness :
    streamLoop ["data: \x7b\"choices\":[\x7b\"delta\":\x7b\"content\":\"Z\"\x7d\x7d]\x7d"] "" =
      streamLoop [] ("" ++ "Z") :=
  (claim_c6 "data: \x7b\"choices\":[\x7b\"delta\":\x7b\"content\":\"Z\"\x7d\x7d]\x7d" [] ""
    (Json.obj [("choices", .arr [.obj [("delta", .obj [("content", .str "Z")])]])])
    rfl (by decide) rfl).1 "Z" rfl (by decide)

/-- Claim C7: every line not beginning with `"data: "` is skipped with
no state change: the loop on `line :: rest` equals the loop on `rest`
with the same accumulated output, for any such line, any remaining
lines and any output so far — so the line contributes nothing, is never
JSON-decoded, and cannot affect the processing of other lines. -/
theorem claim_c7 (line : String) (rest : List String) (out : String)
    (h : startsWithData line = false) :
    streamLoop (line :: rest) out = streamLoop rest out := by
  simp [streamLoop, h]

/-- Witness for C7 on an SSE comment line. -/
theorem claim_c7_witness :
    streamLoop [": keep-alive comment", "data: [DONE]"] "" =
      streamLoop ["data: [DONE]"] "" :=
  claim_c7 ": keep-alive comment" ["data: [DONE]"] "" rfl

/-- Claim C8: with the credential environment variable absent, `main`
exits via `SystemExit` with the diagnostic message and exit code 1 — a
`MainOutcome.exitWith`, under which no network call is made: only the
`runCalls` outcome invokes `chat`/`chat_streaming`. -/
theorem claim_c8 :
    main none = .exitWith 1 "Set OPENAI_API_KEY environment variable" := rfl

/-- Claim C9: in the streaming decode loop, a non-sentinel data frame
fails fast, stopping the loop with an exception and the output emitted
so far, when: its payload is not valid JSON (`json.loads` raises); the
decoded object lacks a `"choices"` key (`KeyError`); its choices list is
empty (`IndexError` on `[0]`); or its first choice lacks a `"delta"` key
(`KeyError`).  Only a missing or empty `content` inside an existing
delta object is tolerated silently, the loop continuing unchanged. -/
theorem claim_c9 (line : String) (rest : List String) (out : String)
    (h1 : startsWithData line = true)
    (h2 : pyStrip (removeMarker line) ≠ "[DONE]") :
    (json_loads (removeMarker line) = none →
      streamLoop (line :: rest) out = .error (.jsonDecodeError, out)) ∧
    (∀ fs, json_loads (removeMarker line) = some (.obj fs) →
      lookupField fs "choices" = none →
      streamLoop (line :: rest) out = .error (.keyError "choices", out)) ∧
    (∀ chunk, json_loads (removeMarker line) = some chunk →
      pySubscript chunk "choices" = .ok (.arr []) →
      streamLoop (line :: rest) out = .error (.indexError, out)) ∧
    (∀ chunk choices fs, json_loads (removeMarker line) = some chunk →
      pySubscript chunk "choices" = .ok choices →
      pyIndexZero choices = .ok (.obj fs) →
      lookupField fs "delta" = none →
      streamLoop (line :: rest) out = .error (.keyError "delta", out)) ∧
    (∀ chunk, json_loads (removeMarker line) = some chunk →
      (deltaContent chunk = .ok .null ∨ deltaContent chunk = .ok (.str "")) →
      streamLoop (line :: rest) out = streamLoop rest out) := by
  refine ⟨?_, ?_, ?_, ?_, ?_⟩
  · intro hj
    simp [streamLoop, h1, h2, hj]
  · intro fs hj hl
    have hd : deltaContent (.obj fs) = .error (.keyError "choices") := by
      simp [deltaContent, pySubscript, hl]
    simp [streamLoop, h1, h2, hj, hd]
  · intro chunk hj hsub
    have hd : deltaContent chunk = .error .indexError := by
      simp [deltaContent, hsub, pyIndexZero]
    simp [streamLoop, h1, h2, hj, hd]
  · intro chunk choices fs hj hsub hidx hl
    have hd : deltaContent chunk = .error (.keyError "delta") := by
      simp only [deltaContent, hsub, hidx]
      simp only [pySubscript, hl]
    simp [streamLoop, h1, h2, hj, hd]
  · intro chunk hj h4
    rcases h4 with h4 | h4 <;> simp [streamLoop, h1, h2, hj, h4, pyTruthy]

/-- Witness for C9: an invalid-JSON payload raises the decode error with
no output, and the following sentinel line is never reached. -/
theorem claim_c9_witness :
    streamLoop ["data: notjson", "data: [DONE]"] "" = .error (.jsonDecodeError, "") :=
  (claim_c9 "data: notjson" ["data: [DONE]"] "" rfl (by decide)).1 rfl

/-- Claim C10: a credential set to the empty string is treated exactly
like an absent one — `if not api_key` is taken for both, producing the
same fatal `SystemExit` before any network activity — while the header
builder itself accepts the empty credential and builds its one-entry
header from it. -/
theorem claim_c10 :
    main (some "") = main none ∧
    main (some "") = .exitWith 1 "Set OPENAI_API_KEY environment variable" ∧
    provider_data_header "" =
      [("X-LlamaStack-Provider-Data", json_dumps (providerDataJson ""))] :=
  ⟨rfl, rfl, rfl⟩

end LlsSample
